import Mathlib

/-!
Verification of the event vocabulary of the gobacktest core
(`pkg/backtest/events.go`).

Embedding conventions:
* Go `float64` is modelled as `ℚ` (the formulas use only `+`, `-`, `*`
  and division by 2, and every claim's concrete scenario is exactly
  representable);
* Go `int64` is modelled as `Int` (the code performs no int64 arithmetic,
  only storage and a conversion to float, so overflow never arises);
* Go `time.Time` is modelled as an opaque integer tick count (`GoTime`):
  the code only stores and returns timestamps;
* Go `map[string]float64` is modelled as an association list
  `List (String × ℚ)`: the code only carries the mapping;
* a Go pointer-receiver setter becomes a function returning the updated
  structure.
-/

/-- Model of Go `time.Time`: an opaque instant, only stored and returned. -/
abbrev GoTime := Int

/-- `Event` is the implementation of the basic event interface
(fields `timestamp`, `symbol`). -/
structure Event where
  timestamp : GoTime
  symbol : String
  deriving DecidableEq

/-- `Time` returns the timestamp of an event. -/
def Event.Time (e : Event) : GoTime :=
  e.timestamp

/-- `SetTime` sets the timestamp of an event. -/
def Event.SetTime (e : Event) (t : GoTime) : Event :=
  { e with timestamp := t }

/-- `Symbol` returns the symbol string of the event. -/
def Event.Symbol (e : Event) : String :=
  e.symbol

/-- `SetSymbol` sets the symbol string of the event. -/
def Event.SetSymbol (e : Event) (s : String) : Event :=
  { e with symbol := s }

/-- `DataEvent` is the basic implementation of a data event handler:
it carries the open `Metrics` mapping (Go `map[string]float64`). -/
structure DataEvent where
  Metrics : List (String × ℚ)
  deriving DecidableEq

/-- `Bar` declares an event for an OHLCV bar, embedding `Event` and
`DataEvent`. -/
structure Bar where
  event : Event
  dataEvent : DataEvent
  Open : ℚ
  High : ℚ
  Low : ℚ
  Close : ℚ
  AdjClose : ℚ
  Volume : Int
  deriving DecidableEq

/-- Promoted `Time` from the embedded `Event`. -/
def Bar.Time (b : Bar) : GoTime :=
  b.event.Time

/-- Promoted `SetTime` from the embedded `Event`. -/
def Bar.SetTime (b : Bar) (t : GoTime) : Bar :=
  { b with event := b.event.SetTime t }

/-- Promoted `Symbol` from the embedded `Event`. -/
def Bar.Symbol (b : Bar) : String :=
  b.event.Symbol

/-- Promoted `SetSymbol` from the embedded `Event`. -/
def Bar.SetSymbol (b : Bar) (s : String) : Bar :=
  { b with event := b.event.SetSymbol s }

/-- `LatestPrice` returns the close price of the bar event. -/
def Bar.LatestPrice (b : Bar) : ℚ :=
  b.Close

/-- `Tick` declares a tick event, embedding `Event` and `DataEvent`. -/
structure Tick where
  event : Event
  dataEvent : DataEvent
  Bid : ℚ
  Ask : ℚ
  deriving DecidableEq

/-- Promoted `Time` from the embedded `Event`. -/
def Tick.Time (t : Tick) : GoTime :=
  t.event.Time

/-- Promoted `SetTime` from the embedded `Event`. -/
def Tick.SetTime (t : Tick) (x : GoTime) : Tick :=
  { t with event := t.event.SetTime x }

/-- Promoted `Symbol` from the embedded `Event`. -/
def Tick.Symbol (t : Tick) : String :=
  t.event.Symbol

/-- Promoted `SetSymbol` from the embedded `Event`. -/
def Tick.SetSymbol (t : Tick) (s : String) : Tick :=
  { t with event := t.event.SetSymbol s }

/-- `LatestPrice` returns the middle of Bid and Ask. -/
def Tick.LatestPrice (t : Tick) : ℚ :=
  (t.Bid + t.Ask) / 2

/-- `Signal` declares a basic signal event (direction: long or short). -/
structure Signal where
  event : Event
  direction : String
  deriving DecidableEq

/-- Promoted `Time` from the embedded `Event`. -/
def Signal.Time (s : Signal) : GoTime :=
  s.event.Time

/-- Promoted `SetTime` from the embedded `Event`. -/
def Signal.SetTime (s : Signal) (t : GoTime) : Signal :=
  { s with event := s.event.SetTime t }

/-- Promoted `Symbol` from the embedded `Event`. -/
def Signal.Symbol (s : Signal) : String :=
  s.event.Symbol

/-- Promoted `SetSymbol` from the embedded `Event`. -/
def Signal.SetSymbol (s : Signal) (x : String) : Signal :=
  { s with event := s.event.SetSymbol x }

/-- `Direction` returns the Direction of a Signal. -/
def Signal.Direction (s : Signal) : String :=
  s.direction

/-- `SetDirection` sets the direction field of a Signal. -/
def Signal.SetDirection (s : Signal) (dir : String) : Signal :=
  { s with direction := dir }

/-- `Order` declares a basic order event (direction: buy or sell;
OrderType: market or limit). -/
structure Order where
  event : Event
  direction : String
  qty : Int
  OrderType : String
  Limit : ℚ
  deriving DecidableEq

/-- Promoted `Time` from the embedded `Event`. -/
def Order.Time (o : Order) : GoTime :=
  o.event.Time

/-- Promoted `SetTime` from the embedded `Event`. -/
def Order.SetTime (o : Order) (t : GoTime) : Order :=
  { o with event := o.event.SetTime t }

/-- Promoted `Symbol` from the embedded `Event`. -/
def Order.Symbol (o : Order) : String :=
  o.event.Symbol

/-- Promoted `SetSymbol` from the embedded `Event`. -/
def Order.SetSymbol (o : Order) (s : String) : Order :=
  { o with event := o.event.SetSymbol s }

/-- `Direction` returns the Direction of an Order. -/
def Order.Direction (o : Order) : String :=
  o.direction

/-- `SetDirection` sets the direction field of an Order. -/
def Order.SetDirection (o : Order) (s : String) : Order :=
  { o with direction := s }

/-- `Qty` returns the qty field of an Order. -/
def Order.Qty (o : Order) : Int :=
  o.qty

/-- `SetQty` sets the qty field of an Order. -/
def Order.SetQty (o : Order) (i : Int) : Order :=
  { o with qty := i }

/-- `Fill` declares a basic fill event (direction: BOT for buy or SLD for
sell; `cost` is the total cost of the filled order incl commission and
fees). -/
structure Fill where
  event : Event
  Exchange : String
  direction : String
  qty : Int
  price : ℚ
  commission : ℚ
  exchangeFee : ℚ
  cost : ℚ
  deriving DecidableEq

/-- Promoted `Time` from the embedded `Event`. -/
def Fill.Time (f : Fill) : GoTime :=
  f.event.Time

/-- Promoted `SetTime` from the embedded `Event`. -/
def Fill.SetTime (f : Fill) (t : GoTime) : Fill :=
  { f with event := f.event.SetTime t }

/-- Promoted `Symbol` from the embedded `Event`. -/
def Fill.Symbol (f : Fill) : String :=
  f.event.Symbol

/-- Promoted `SetSymbol` from the embedded `Event`. -/
def Fill.SetSymbol (f : Fill) (s : String) : Fill :=
  { f with event := f.event.SetSymbol s }

/-- `Direction` returns the direction of a Fill. -/
def Fill.Direction (f : Fill) : String :=
  f.direction

/-- `SetDirection` sets the direction field of a Fill. -/
def Fill.SetDirection (f : Fill) (s : String) : Fill :=
  { f with direction := s }

/-- `Qty` returns the qty field of a fill. -/
def Fill.Qty (f : Fill) : Int :=
  f.qty

/-- `SetQty` sets the qty field of a Fill. -/
def Fill.SetQty (f : Fill) (i : Int) : Fill :=
  { f with qty := i }

/-- `Price` returns the price field of a fill. -/
def Fill.Price (f : Fill) : ℚ :=
  f.price

/-- `Commission` returns the commission field of a fill. -/
def Fill.Commission (f : Fill) : ℚ :=
  f.commission

/-- `ExchangeFee` returns the exchangeFee field of a fill. -/
def Fill.ExchangeFee (f : Fill) : ℚ :=
  f.exchangeFee

/-- `Cost` returns the cost field of a Fill. -/
def Fill.Cost (f : Fill) : ℚ :=
  f.cost

/-- `Value` returns the value without cost: `float64(f.qty) * f.price`. -/
def Fill.Value (f : Fill) : ℚ :=
  (f.qty : ℚ) * f.price

/-- `NetValue` returns the net value including cost: branch on
`f.direction == "BOT"`, any other direction falls to the sell branch. -/
def Fill.NetValue (f : Fill) : ℚ :=
  if f.direction = "BOT" then
    (f.qty : ℚ) * f.price + f.cost
  else
    (f.qty : ℚ) * f.price - f.cost

/-- A Go method call on a value receiver: the receiver is copied, so the
caller's value after the call is the value before it. Paired here with
the result so the post-state can be stated explicitly. -/
def Bar.LatestPriceCall (b : Bar) : ℚ × Bar :=
  (b.LatestPrice, b)

/-- A Go method call on a value receiver, paired with the (unchanged)
post-state, as for `Bar.LatestPriceCall`. -/
def Tick.LatestPriceCall (t : Tick) : ℚ × Tick :=
  (t.LatestPrice, t)

/-- C1: for every Fill, `NetValue` is `Qty*Price + Cost` exactly when the
direction is the literal string `"BOT"`, and `Qty*Price - Cost` for every
other direction string (the sell branch is the total fallback, no error);
in particular the Fill with direction `"unknown"`, qty 5, price 10, cost 1
has `NetValue = 49`. -/
theorem Fill.netValue_branches :
    (∀ f : Fill,
      f.NetValue =
        if f.Direction = "BOT" then (f.Qty : ℚ) * f.Price + f.Cost
        else (f.Qty : ℚ) * f.Price - f.Cost) ∧
    Fill.NetValue
      { event := { timestamp := 0, symbol := "" }, Exchange := "",
        direction := "unknown", qty := 5, price := 10, commission := 0,
        exchangeFee := 0, cost := 1 } = 49 := by
  refine ⟨fun f => rfl, ?_⟩
  have h : ¬ ("unknown" : String) = "BOT" := by decide
  simp only [Fill.NetValue, if_neg h]
  norm_num

/-- C2: every Bar's `LatestPrice` is its `Close`; no other field enters
the result. -/
theorem Bar.latestPrice_eq_close : ∀ b : Bar, b.LatestPrice = b.Close :=
  fun _ => rfl

/-- C3: every Tick's `LatestPrice` is `(Bid + Ask) / 2`, with no
precondition relating `Bid` and `Ask`. -/
theorem Tick.latestPrice_eq_mid :
    ∀ t : Tick, t.LatestPrice = (t.Bid + t.Ask) / 2 :=
  fun _ => rfl

/-- C4: every Fill's `Value` is `Qty * Price`, independent of the
direction, commission, exchangeFee and cost fields. -/
theorem Fill.value_eq_qty_mul_price :
    ∀ f : Fill, f.Value = (f.Qty : ℚ) * f.Price :=
  fun _ => rfl

/-- C5: setter/getter round-trip on every event variant: after setting
Time, Symbol (all variants), Direction (Signal, Order, Fill) or Qty
(Order, Fill) to a value x, the corresponding getter returns exactly x. -/
theorem setter_getter_roundtrip :
    (∀ (b : Bar) (t : GoTime), (b.SetTime t).Time = t) ∧
    (∀ (b : Bar) (s : String), (b.SetSymbol s).Symbol = s) ∧
    (∀ (k : Tick) (t : GoTime), (k.SetTime t).Time = t) ∧
    (∀ (k : Tick) (s : String), (k.SetSymbol s).Symbol = s) ∧
    (∀ (g : Signal) (t : GoTime), (g.SetTime t).Time = t) ∧
    (∀ (g : Signal) (s : String), (g.SetSymbol s).Symbol = s) ∧
    (∀ (g : Signal) (d : String), (g.SetDirection d).Direction = d) ∧
    (∀ (o : Order) (t : GoTime), (o.SetTime t).Time = t) ∧
    (∀ (o : Order) (s : String), (o.SetSymbol s).Symbol = s) ∧
    (∀ (o : Order) (d : String), (o.SetDirection d).Direction = d) ∧
    (∀ (o : Order) (i : Int), (o.SetQty i).Qty = i) ∧
    (∀ (f : Fill) (t : GoTime), (f.SetTime t).Time = t) ∧
    (∀ (f : Fill) (s : String), (f.SetSymbol s).Symbol = s) ∧
    (∀ (f : Fill) (d : String), (f.SetDirection d).Direction = d) ∧
    (∀ (f : Fill) (i : Int), (f.SetQty i).Qty = i) := by
  repeat' apply And.intro
  all_goals intros
  all_goals rfl

/-- C6: every setter is total: it is a plain function that accepts and
stores any representable value — any timestamp, any string (directions
outside the kind's vocabulary included), any integer quantity (negative
included) — with no error value in its type; concretely, a Fill accepts
the direction string "nonsense" and the quantity -3. -/
theorem setters_total_no_validation :
    (∀ (e : Event) (t : GoTime), (e.SetTime t).timestamp = t) ∧
    (∀ (e : Event) (s : String), (e.SetSymbol s).symbol = s) ∧
    (∀ (g : Signal) (d : String), (g.SetDirection d).direction = d) ∧
    (∀ (o : Order) (d : String), (o.SetDirection d).direction = d) ∧
    (∀ (o : Order) (i : Int), (o.SetQty i).qty = i) ∧
    (∀ (f : Fill) (d : String), (f.SetDirection d).direction = d) ∧
    (∀ (f : Fill) (i : Int), (f.SetQty i).qty = i) ∧
    (Fill.SetDirection
      { event := { timestamp := 0, symbol := "A" }, Exchange := "",
        direction := "BOT", qty := 1, price := 0, commission := 0,
        exchangeFee := 0, cost := 0 } "nonsense").direction = "nonsense" ∧
    (Fill.SetQty
      { event := { timestamp := 0, symbol := "A" }, Exchange := "",
        direction := "BOT", qty := 1, price := 0, commission := 0,
        exchangeFee := 0, cost := 0 } (-3)).qty = -3 := by
  repeat' apply And.intro
  all_goals intros
  all_goals rfl

/-- C7: `NetValue` reads only the qty, price, cost and direction fields:
two Fills agreeing on those four fields have the same `NetValue`,
whatever their commission, exchangeFee (and other) fields. -/
theorem Fill.netValue_ignores_fees :
    ∀ f1 f2 : Fill, f1.qty = f2.qty → f1.price = f2.price →
      f1.cost = f2.cost → f1.direction = f2.direction →
      f1.NetValue = f2.NetValue := by
  intro f1 f2 hq hp hc hd
  simp only [Fill.NetValue, hq, hp, hc, hd]

/-- C7 witness: two concrete Fills equal in qty, price, cost, direction
but with different commission and exchangeFee have equal `NetValue`. -/
theorem Fill.netValue_ignores_fees_witness :
    Fill.NetValue
      { event := { timestamp := 0, symbol := "A" }, Exchange := "X",
        direction := "SLD", qty := 3, price := 7, commission := 1,
        exchangeFee := 2, cost := 4 } =
    Fill.NetValue
      { event := { timestamp := 0, symbol := "A" }, Exchange := "X",
        direction := "SLD", qty := 3, price := 7, commission := 100,
        exchangeFee := 200, cost := 4 } :=
  Fill.netValue_ignores_fees _ _ rfl rfl rfl rfl

/-- C8: `Bar.LatestPrice` and `Tick.LatestPrice` neither read nor write
the Metrics mapping, and `Bar.LatestPrice` does not read AdjClose: two
Bars agreeing on every field other than Metrics and AdjClose (resp. two
Ticks agreeing on every field other than Metrics) have equal
`LatestPrice`, and the value-receiver call leaves the receiver's Metrics
mapping unchanged. -/
theorem latestPrice_independent_of_metrics_adjclose :
    (∀ b1 b2 : Bar, b1.event = b2.event → b1.Open = b2.Open →
      b1.High = b2.High → b1.Low = b2.Low → b1.Close = b2.Close →
      b1.Volume = b2.Volume → b1.LatestPrice = b2.LatestPrice) ∧
    (∀ t1 t2 : Tick, t1.event = t2.event → t1.Bid = t2.Bid →
      t1.Ask = t2.Ask → t1.LatestPrice = t2.LatestPrice) ∧
    (∀ b : Bar,
      (b.LatestPriceCall).2.dataEvent.Metrics = b.dataEvent.Metrics) ∧
    (∀ t : Tick,
      (t.LatestPriceCall).2.dataEvent.Metrics = t.dataEvent.Metrics) := by
  refine ⟨fun b1 b2 _ _ _ _ hc _ => ?_, fun t1 t2 _ hb ha => ?_,
    fun _ => rfl, fun _ => rfl⟩
  · simp only [Bar.LatestPrice, hc]
  · simp only [Tick.LatestPrice, hb, ha]

/-- C8 witness: two concrete Bars differing only in Metrics and AdjClose,
and two concrete Ticks differing only in Metrics, have equal
`LatestPrice`. -/
theorem latestPrice_independent_of_metrics_adjclose_witness :
    Bar.LatestPrice
      { event := { timestamp := 0, symbol := "SPX" },
        dataEvent := { Metrics := [] }, Open := 1, High := 2, Low := 0,
        Close := 3, AdjClose := 3, Volume := 10 } =
    Bar.LatestPrice
      { event := { timestamp := 0, symbol := "SPX" },
        dataEvent := { Metrics := [("sma", 5)] }, Open := 1, High := 2,
        Low := 0, Close := 3, AdjClose := 99, Volume := 10 } ∧
    Tick.LatestPrice
      { event := { timestamp := 0, symbol := "SPX" },
        dataEvent := { Metrics := [] }, Bid := 100, Ask := 101 } =
    Tick.LatestPrice
      { event := { timestamp := 0, symbol := "SPX" },
        dataEvent := { Metrics := [("ema", 7)] }, Bid := 100,
        Ask := 101 } :=
  ⟨latestPrice_independent_of_metrics_adjclose.1 _ _
      rfl rfl rfl rfl rfl rfl,
   (latestPrice_independent_of_metrics_adjclose.2.1 _ _ rfl rfl rfl)⟩

/-- C9: every setter modifies only its own field: for each variant,
SetTime leaves the symbol and every kind-specific field unchanged,
SetSymbol leaves the timestamp and every kind-specific field unchanged,
SetDirection (Signal, Order, Fill) leaves everything but the direction
unchanged, and SetQty (Order, Fill) leaves everything but the quantity
unchanged — in particular Order's OrderType and Limit and Fill's price,
commission, exchangeFee and cost. -/
theorem setters_frame :
    (∀ (b : Bar) (t : GoTime),
      ((b.SetTime t).event.symbol, (b.SetTime t).dataEvent,
        (b.SetTime t).Open, (b.SetTime t).High, (b.SetTime t).Low,
        (b.SetTime t).Close, (b.SetTime t).AdjClose,
        (b.SetTime t).Volume) =
      (b.event.symbol, b.dataEvent, b.Open, b.High, b.Low, b.Close,
        b.AdjClose, b.Volume)) ∧
    (∀ (b : Bar) (s : String),
      ((b.SetSymbol s).event.timestamp, (b.SetSymbol s).dataEvent,
        (b.SetSymbol s).Open, (b.SetSymbol s).High, (b.SetSymbol s).Low,
        (b.SetSymbol s).Close, (b.SetSymbol s).AdjClose,
        (b.SetSymbol s).Volume) =
      (b.event.timestamp, b.dataEvent, b.Open, b.High, b.Low, b.Close,
        b.AdjClose, b.Volume)) ∧
    (∀ (k : Tick) (t : GoTime),
      ((k.SetTime t).event.symbol, (k.SetTime t).dataEvent,
        (k.SetTime t).Bid, (k.SetTime t).Ask) =
      (k.event.symbol, k.dataEvent, k.Bid, k.Ask)) ∧
    (∀ (k : Tick) (s : String),
      ((k.SetSymbol s).event.timestamp, (k.SetSymbol s).dataEvent,
        (k.SetSymbol s).Bid, (k.SetSymbol s).Ask) =
      (k.event.timestamp, k.dataEvent, k.Bid, k.Ask)) ∧
    (∀ (g : Signal) (t : GoTime),
      ((g.SetTime t).event.symbol, (g.SetTime t).direction) =
      (g.event.symbol, g.direction)) ∧
    (∀ (g : Signal) (s : String),
      ((g.SetSymbol s).event.timestamp, (g.SetSymbol s).direction) =
      (g.event.timestamp, g.direction)) ∧
    (∀ (g : Signal) (d : String),
      (g.SetDirection d).event = g.event) ∧
    (∀ (o : Order) (t : GoTime),
      ((o.SetTime t).event.symbol, (o.SetTime t).direction,
        (o.SetTime t).qty, (o.SetTime t).OrderType,
        (o.SetTime t).Limit) =
      (o.event.symbol, o.direction, o.qty, o.OrderType, o.Limit)) ∧
    (∀ (o : Order) (s : String),
      ((o.SetSymbol s).event.timestamp, (o.SetSymbol s).direction,
        (o.SetSymbol s).qty, (o.SetSymbol s).OrderType,
        (o.SetSymbol s).Limit) =
      (o.event.timestamp, o.direction, o.qty, o.OrderType, o.Limit)) ∧
    (∀ (o : Order) (d : String),
      ((o.SetDirection d).event, (o.SetDirection d).qty,
        (o.SetDirection d).OrderType, (o.SetDirection d).Limit) =
      (o.event, o.qty, o.OrderType, o.Limit)) ∧
    (∀ (o : Order) (i : Int),
      ((o.SetQty i).event, (o.SetQty i).direction,
        (o.SetQty i).OrderType, (o.SetQty i).Limit) =
      (o.event, o.direction, o.OrderType, o.Limit)) ∧
    (∀ (f : Fill) (t : GoTime),
      ((f.SetTime t).event.symbol, (f.SetTime t).Exchange,
        (f.SetTime t).direction, (f.SetTime t).qty, (f.SetTime t).price,
        (f.SetTime t).commission, (f.SetTime t).exchangeFee,
        (f.SetTime t).cost) =
      (f.event.symbol, f.Exchange, f.direction, f.qty, f.price,
        f.commission, f.exchangeFee, f.cost)) ∧
    (∀ (f : Fill) (s : String),
      ((f.SetSymbol s).event.timestamp, (f.SetSymbol s).Exchange,
        (f.SetSymbol s).direction, (f.SetSymbol s).qty,
        (f.SetSymbol s).price, (f.SetSymbol s).commission,
        (f.SetSymbol s).exchangeFee, (f.SetSymbol s).cost) =
      (f.event.timestamp, f.Exchange, f.direction, f.qty, f.price,
        f.commission, f.exchangeFee, f.cost)) ∧
    (∀ (f : Fill) (d : String),
      ((f.SetDirection d).event, (f.SetDirection d).Exchange,
        (f.SetDirection d).qty, (f.SetDirection d).price,
        (f.SetDirection d).commission, (f.SetDirection d).exchangeFee,
        (f.SetDirection d).cost) =
      (f.event, f.Exchange, f.qty, f.price, f.commission, f.exchangeFee,
        f.cost)) ∧
    (∀ (f : Fill) (i : Int),
      ((f.SetQty i).event, (f.SetQty i).Exchange,
        (f.SetQty i).direction, (f.SetQty i).price,
        (f.SetQty i).commission, (f.SetQty i).exchangeFee,
        (f.SetQty i).cost) =
      (f.event, f.Exchange, f.direction, f.price, f.commission,
        f.exchangeFee, f.cost)) := by
  repeat' apply And.intro
  all_goals intros
  all_goals rfl

/-- C10: setters of distinct attributes commute: on every variant,
SetTime then SetSymbol gives the same state as SetSymbol then SetTime;
on Order and Fill, SetDirection and SetQty commute likewise. -/
theorem setters_commute :
    (∀ (b : Bar) (t : GoTime) (s : String),
      (b.SetTime t).SetSymbol s = (b.SetSymbol s).SetTime t) ∧
    (∀ (k : Tick) (t : GoTime) (s : String),
      (k.SetTime t).SetSymbol s = (k.SetSymbol s).SetTime t) ∧
    (∀ (g : Signal) (t : GoTime) (s : String),
      (g.SetTime t).SetSymbol s = (g.SetSymbol s).SetTime t) ∧
    (∀ (o : Order) (t : GoTime) (s : String),
      (o.SetTime t).SetSymbol s = (o.SetSymbol s).SetTime t) ∧
    (∀ (f : Fill) (t : GoTime) (s : String),
      (f.SetTime t).SetSymbol s = (f.SetSymbol s).SetTime t) ∧
    (∀ (o : Order) (d : String) (i : Int),
      (o.SetDirection d).SetQty i = (o.SetQty i).SetDirection d) ∧
    (∀ (f : Fill) (d : String) (i : Int),
      (f.SetDirection d).SetQty i = (f.SetQty i).SetDirection d) := by
  repeat' apply And.intro
  all_goals intros
  all_goals rfl
